import Mathlib

/-!
Verification of the workflow-descriptor file `src/airflow/dags/training_pipeline.py`
of the network-security-system-mlops repository.

The source file is embedded at two levels:

1. The file as Python evaluates it: the exact 54 lines of the file
   (`moduleLines`), a classification of lines into comments / blank lines /
   executed statements, and a module-evaluation function parametric in the
   semantics of a single executed statement.  Since every line of the file is
   a comment or blank, evaluation is a no-op under any statement semantics.

2. The workflow declaration contained (in commented-out form) in the file:
   the DAG with its two `PythonOperator` tasks, the dependency edge
   `training_pipeline >> sync_data_to_s3`, the schedule / catchup / retry
   configuration, and the bodies of the two task callables (`training` and
   `sync_artifact_to_s3_bucket`), translated statement by statement.

Orchestrator behaviour (retry policy, catchup scheduling, task-status
reporting) is not part of the repository; where a claim depends on it, the
relevant semantics is modelled from the specification and marked as such.
-/

/-- The exact 54 lines of `src/airflow/dags/training_pipeline.py`, in order.
Apostrophes are written `\x27` and braces `\x7b`/`\x7d`; every other
character is verbatim. -/
def moduleLines : List String :=
  [ "# from asyncio import tasks",
    "# import json",
    "# from textwrap import dedent",
    "# import pendulum",
    "# import os",
    "# from airflow import DAG",
    "# from airflow.operators.python import PythonOperator",
    "# from dotenv import load_dotenv",
    "# load_dotenv()",
    "",
    "# with DAG(",
    "#     \x27network_training_pipelinr\x27,",
    "#     default_args=\x7b\x27retries\x27: 2\x7d,",
    "#     description=\x27Network security pipeline for training and syncing to S3\x27,",
    "#     schedule_interval=\"@weekly\",",
    "#     start_date=pendulum.datetime(2024,12,24, tz=\"UTC\"),",
    "#     catchup=False,",
    "#     tags=[\x27mlops\x27],",
    "# ) as dag:",
    "",
    "    ",
    "#     def training(**kwargs):",
    "        ",
    "#         from networksecurity.pipeline.training_pipeline import TrainingPipeline",
    "#         training_obj=TrainingPipeline()",
    "#         training_obj.run_pipeline()",
    "        ",
    "    ",
    "#     def sync_artifact_to_s3_bucket(**kwargs):",
    "#         bucket_name = \"networksecurity3\"",
    "#         os.system(f\"aws s3 sync /app/Artifacts s3://\x7bbucket_name\x7d/artifact\")",
    "#         os.system(f\"aws s3 sync /app/final_model s3://\x7bbucket_name\x7d/final_model\")",
    "",
    "#     training_pipeline  = PythonOperator(",
    "#             task_id=\"train_pipeline\",",
    "#             python_callable=training",
    "",
    "#     )",
    "",
    "#     sync_data_to_s3 = PythonOperator(",
    "#             task_id=\"sync_data_to_s3\",",
    "#             python_callable=sync_artifact_to_s3_bucket",
    "",
    "#     )",
    "",
    "#     training_pipeline >> sync_data_to_s3",
    "",
    "",
    "",
    "",
    "",
    "",
    "",
    "" ]

/-- A line is blank when it consists only of whitespace characters. -/
def isBlank (s : String) : Bool :=
  s.data.all (fun c => c == ' ' || c == '\t')

/-- A line is a comment when its first non-whitespace character is `#`
(the Python tokenizer then discards the whole line). -/
def isComment (s : String) : Bool :=
  match s.data.dropWhile (fun c => c == ' ' || c == '\t') with
  | [] => false
  | c :: _ => c == '#'

/-- The lines of a module that Python actually executes: the Python tokenizer
discards comment lines and blank lines, and every remaining line is (part of)
an executed statement. -/
def executedStatements (lines : List String) : List String :=
  lines.filter (fun l => !(isComment l || isBlank l))

/-- Observable effects of evaluating a Python module: the module-global names
it defines, the workflow task identifiers it registers with the orchestrator,
the number of times it loads environment variables from the local `.env`
file, and the shell commands it runs. -/
structure ModuleEffects where
  definedNames : List String
  registeredTaskIds : List String
  dotenvLoads : Nat
  shellCommands : List String
deriving DecidableEq, Repr

/-- The effects of evaluating an empty statement list: nothing happens. -/
def emptyEffects : ModuleEffects :=
  { definedNames := [], registeredTaskIds := [], dotenvLoads := 0, shellCommands := [] }

/-- Evaluating a Python module: the executed (non-comment, non-blank) lines
are run in order, each updating the accumulated effects.  The semantics of a
single executed line is left as a parameter `execStmt`, so results proved for
every `execStmt` hold under the actual Python semantics in particular. -/
def evalModule (execStmt : String → ModuleEffects → ModuleEffects)
    (lines : List String) : ModuleEffects :=
  (executedStatements lines).foldl (fun eff l => execStmt l eff) emptyEffects

/-- A deliberately over-generous concrete line semantics, used to witness
no-op results at a specific instantiation: every executed line is taken to
define a name, register a task, load the environment file, and run a shell
command.  Under any real semantics a line has at most these effects. -/
def generousSemantics : String → ModuleEffects → ModuleEffects :=
  fun l eff =>
    { definedNames := eff.definedNames ++ [l],
      registeredTaskIds := eff.registeredTaskIds ++ [l],
      dotenvLoads := eff.dotenvLoads + 1,
      shellCommands := eff.shellCommands ++ [l] }

/-! ## The workflow declaration contained in the file

The commented-out lines 11–46 of the file declare an Airflow DAG.  The
declaration is translated here field by field, keeping the source's names
(including the `network_training_pipelinr` typo in the DAG id). -/

/-- The `default_args` dictionary of the DAG declaration:
`default_args={'retries': 2}` — a per-task default retry count. -/
structure DefaultArgs where
  retries : Nat
deriving DecidableEq, Repr

/-- The DAG's start date, `pendulum.datetime(2024,12,24, tz="UTC")`. -/
structure PendulumDate where
  year : Nat
  month : Nat
  day : Nat
  tz : String
deriving DecidableEq, Repr

/-- A `PythonOperator` declaration: a task identifier together with the name
of the Python callable it invokes. -/
structure TaskDecl where
  task_id : String
  python_callable : String
deriving DecidableEq, Repr

/-- An Airflow DAG declaration with the fields used by the descriptor:
identifier, default arguments, description, schedule, start date, catchup
flag, tags, the registered tasks, and the upstream→downstream dependency
edges declared with `>>`. -/
structure DagDecl where
  dag_id : String
  default_args : DefaultArgs
  description : String
  schedule_interval : String
  start_date : PendulumDate
  catchup : Bool
  tags : List String
  tasks : List TaskDecl
  upstream_edges : List (String × String)
deriving DecidableEq, Repr

/-- The first `PythonOperator` of the declaration (source lines 34–38):
`task_id="train_pipeline"`, `python_callable=training`. -/
def training_pipeline : TaskDecl :=
  { task_id := "train_pipeline", python_callable := "training" }

/-- The second `PythonOperator` of the declaration (source lines 40–44):
`task_id="sync_data_to_s3"`, `python_callable=sync_artifact_to_s3_bucket`. -/
def sync_data_to_s3 : TaskDecl :=
  { task_id := "sync_data_to_s3", python_callable := "sync_artifact_to_s3_bucket" }

/-- The DAG declared by source lines 11–46: two tasks and the single
dependency edge `training_pipeline >> sync_data_to_s3`. -/
def networkTrainingDag : DagDecl :=
  { dag_id := "network_training_pipelinr",
    default_args := { retries := 2 },
    description := "Network security pipeline for training and syncing to S3",
    schedule_interval := "@weekly",
    start_date := { year := 2024, month := 12, day := 24, tz := "UTC" },
    catchup := false,
    tags := ["mlops"],
    tasks := [training_pipeline, sync_data_to_s3],
    upstream_edges := [(training_pipeline.task_id, sync_data_to_s3.task_id)] }

/-- The task identifiers of a DAG declaration, in declaration order. -/
def taskIds (d : DagDecl) : List String :=
  d.tasks.map TaskDecl.task_id

/-! ## The task callables -/

/-- A Python exception, as far as the descriptor's callables can raise one:
an `ImportError` naming the missing module, or some other exception. -/
inductive PyExn where
  | importError (module : String)
  | other (msg : String)
deriving DecidableEq, Repr

/-- Python's `os.system`: runs the command line in the ambient shell `shell`
and returns the command's exit status.  It does not raise on a non-zero
status — the status is only returned. -/
def os_system (shell : String → Int) (cmd : String) : Int :=
  shell cmd

/-- The body of `sync_artifact_to_s3_bucket` (source lines 29–32), run in an
ambient shell: binds `bucket_name = "networksecurity3"`, then issues the two
`aws s3 sync` commands via `os.system`, in source order.  The result is the
ordered trace of (command line, exit status) pairs; the body inspects neither
status and raises nothing, so it always returns normally (`Except.ok`). -/
def sync_artifact_to_s3_bucket (shell : String → Int) :
    Except PyExn (List (String × Int)) :=
  let bucket_name := "networksecurity3"
  let cmd1 := "aws s3 sync /app/Artifacts s3://" ++ bucket_name ++ "/artifact"
  let cmd2 := "aws s3 sync /app/final_model s3://" ++ bucket_name ++ "/final_model"
  Except.ok [(cmd1, os_system shell cmd1), (cmd2, os_system shell cmd2)]

/-- The ordered list of shell command lines issued by one invocation of the
sync callable. -/
def syncCommands (shell : String → Int) : List String :=
  match sync_artifact_to_s3_bucket shell with
  | Except.ok trace => trace.map Prod.fst
  | Except.error _ => []

/-- The module imported inside the body of `training` (source line 24):
`from networksecurity.pipeline.training_pipeline import TrainingPipeline`. -/
def trainingBodyImport : String :=
  "networksecurity.pipeline.training_pipeline"

/-- The body of `training` (source lines 22–26), run under an import
environment `available`: its first statement imports the external
training-pipeline module, raising `ImportError` when that module is missing;
otherwise it constructs `TrainingPipeline()` and calls `run_pipeline()`,
whose outcome `pipelineRun` is opaque to the descriptor. -/
def training (available : String → Bool) (pipelineRun : Except PyExn Unit) :
    Except PyExn Unit :=
  if available trainingBodyImport then pipelineRun
  else Except.error (PyExn.importError trainingBodyImport)

/-! ## Orchestrator semantics

The orchestrator (Airflow) is an external collaborator of the descriptor;
its retry, scheduling and status-reporting behaviour is not part of the
repository.  The definitions below model exactly the behaviour the
specification ascribes to it. -/

/-- Final state of a task run as reported by the orchestrator. -/
inductive TaskState where
  | success
  | failed
deriving DecidableEq, Repr

/-- Modelled from the spec: the orchestrator marks a task run successful
precisely when its callable returns without raising, and failed when it
raises. -/
def taskRunState {α : Type} (result : Except PyExn α) : TaskState :=
  match result with
  | Except.ok _ => TaskState.success
  | Except.error _ => TaskState.failed

/-- Auxiliary loop for `runWithRetries`: `k` is the index of the current
invocation (0 for the first try), the second argument the number of retries
still allowed. -/
def runWithRetriesAux (attempt : Nat → Bool) : Nat → Nat → TaskState × Nat
  | k, 0 => if attempt k then (TaskState.success, k) else (TaskState.failed, k)
  | k, r + 1 =>
      if attempt k then (TaskState.success, k)
      else runWithRetriesAux attempt (k + 1) r

/-- Modelled from the spec: the orchestrator's per-task retry policy
("2 automatic retries per task on failure").  `attempt k` tells whether the
`k`-th invocation of the task's callable succeeds (`k = 0` is the first
try); on failure the orchestrator re-invokes at most `retries` more times.
Returns the final reported state together with the number of retries that
were performed. -/
def runWithRetries (retries : Nat) (attempt : Nat → Bool) : TaskState × Nat :=
  runWithRetriesAux attempt 0 retries

/-- A run of the workflow, as the orchestrator schedules it: which tasks ran,
the time interval `[startT, finishT]` each occupied, and whether each
completed successfully. -/
structure Execution where
  runs : String → Bool
  startT : String → Nat
  finishT : String → Nat
  succeeded : String → Bool

/-- Modelled from the spec: a valid execution of a declared DAG under the
orchestrator's dependency semantics — every task occupies a well-formed time
interval, and a task that is downstream of an edge begins only after the
upstream task has run to successful completion. -/
def ValidExecution (d : DagDecl) (e : Execution) : Prop :=
  (∀ t ∈ taskIds d, e.startT t ≤ e.finishT t) ∧
  (∀ p ∈ d.upstream_edges, e.runs p.2 = true →
      e.runs p.1 = true ∧ e.succeeded p.1 = true ∧ e.finishT p.1 < e.startT p.2)

/-- Whether the declaration contains a direct dependency edge `u → v`. -/
def hasEdge (d : DagDecl) (u v : String) : Bool :=
  d.upstream_edges.contains (u, v)

/-- Reachability along dependency edges in at most `n` steps. -/
def reachableIn (d : DagDecl) : Nat → String → String → Bool
  | 0, _, _ => false
  | n + 1, u, v =>
      hasEdge d u v || (taskIds d).any (fun w => hasEdge d u w && reachableIn d n w v)

/-- A declaration is acyclic when no task reaches itself along dependency
edges. -/
def Acyclic (d : DagDecl) : Prop :=
  ∀ t ∈ taskIds d, reachableIn d (taskIds d).length t t = false

/-- One week, in seconds — the length of the `@weekly` schedule interval. -/
def weekSeconds : Nat := 7 * 24 * 60 * 60

/-- End of the `n`-th schedule interval (counting from 0) for a schedule that
starts at `startEpoch` with interval length `len`: the interval covers
`[startEpoch + n*len, startEpoch + (n+1)*len)`. -/
def intervalEnd (startEpoch len n : Nat) : Nat :=
  startEpoch + (n + 1) * len

/-- Modelled from the spec: with catch-up disabled the scheduler creates a
run instance for a schedule interval only if that interval has not already
fully elapsed at the time `firstEval` of the descriptor's first evaluation;
with catch-up enabled every interval since the start date is backfilled. -/
def runGenerated (catchup : Bool) (startEpoch len firstEval n : Nat) : Bool :=
  if catchup then true
  else !(decide (intervalEnd startEpoch len n < firstEval))

/-! ## Load-time actions of the declared descriptor -/

/-- An action performed at module-load time by the declared descriptor. -/
inductive LoadEvent where
  | importModule (module : String)
  | loadDotenv
  | dagDeclared (dag_id : String)
  | defineCallable (name : String)
  | registerTask (task_id : String)
  | setUpstream (upstream downstream : String)
deriving DecidableEq, Repr

/-- The top-level actions of the declared descriptor, in source order: the
eight top-level imports (lines 1–8), the `load_dotenv()` call (line 9), the
DAG declaration (lines 11–19), the two `def` statements (lines 22, 29), the
two `PythonOperator` registrations (lines 34, 40) and the dependency
statement (line 46).  Task bodies are not run at load time, so no action of
either task body appears in this trace. -/
def declaredLoadTrace : List LoadEvent :=
  [ LoadEvent.importModule "asyncio",
    LoadEvent.importModule "json",
    LoadEvent.importModule "textwrap",
    LoadEvent.importModule "pendulum",
    LoadEvent.importModule "os",
    LoadEvent.importModule "airflow",
    LoadEvent.importModule "airflow.operators.python",
    LoadEvent.importModule "dotenv",
    LoadEvent.loadDotenv,
    LoadEvent.dagDeclared "network_training_pipelinr",
    LoadEvent.defineCallable "training",
    LoadEvent.defineCallable "sync_artifact_to_s3_bucket",
    LoadEvent.registerTask "train_pipeline",
    LoadEvent.registerTask "sync_data_to_s3",
    LoadEvent.setUpstream "train_pipeline" "sync_data_to_s3" ]

/-- The modules imported at top level by the declared descriptor (lines 1–8),
in source order.  The `networksecurity.pipeline.training_pipeline` module is
not among them: it is imported inside the body of `training`. -/
def topLevelImports : List String :=
  [ "asyncio", "json", "textwrap", "pendulum", "os",
    "airflow", "airflow.operators.python", "dotenv" ]

/-- Evaluating the declared descriptor under an import environment
`available`: Python resolves the eight top-level imports in source order, and
the first missing one raises `ImportError`, aborting the load with no DAG
registered.  When all of them resolve, the load completes and the DAG with
its two tasks is registered.  The import inside `training`'s body is not
resolved at load time. -/
def descriptorEval (available : String → Bool) : Except PyExn DagDecl :=
  match topLevelImports.find? (fun m => !(available m)) with
  | some m => Except.error (PyExn.importError m)
  | none => Except.ok networkTrainingDag

/-! ## Concrete instances used in witnesses and counterexamples -/

/-- A shell in which every command exits with status 1. -/
def failShell : String → Int := fun _ => 1

/-- An import environment in which every module except the external
training-pipeline module is available. -/
def noTrainingModule : String → Bool := fun m => !(m == trainingBodyImport)

/-- An attempt profile that raises on its first two invocations and succeeds
on the third (invocations are numbered from 0). -/
def thirdTrySucceeds : Nat → Bool := fun k => decide (2 ≤ k)

/-- A concrete run of the workflow: both tasks run successfully, the training
task over `[0, 1]` and the sync task over `[2, 3]`. -/
def sampleExecution : Execution :=
  { runs := fun _ => true,
    startT := fun t => if t == "train_pipeline" then 0 else 2,
    finishT := fun t => if t == "train_pipeline" then 1 else 3,
    succeeded := fun _ => true }

/-! ## Helper lemmas -/

/-- The file contains no executed statement: every line is a comment or
blank. -/
theorem executedStatements_moduleLines : executedStatements moduleLines = [] := by
  decide

/-- Under any statement semantics, evaluating the module produces no
effects. -/
theorem evalModule_moduleLines (execStmt : String → ModuleEffects → ModuleEffects) :
    evalModule execStmt moduleLines = emptyEffects := by
  unfold evalModule
  rw [executedStatements_moduleLines]
  rfl

/-! ## Claim theorems -/

/-- Claim C1, counterexample: evaluating (loading) the file registers no
task at all — even under the over-generous semantics in which every executed
line would register a task — so it does not register exactly two tasks. -/
theorem moduleLoad_registers_no_tasks :
    (evalModule generousSemantics moduleLines).registeredTaskIds = [] ∧
    ((evalModule generousSemantics moduleLines).registeredTaskIds.length == 2) = false := by
  rw [evalModule_moduleLines]
  exact ⟨rfl, rfl⟩

/-- Claim C1, amended: evaluating the file as it stands registers no task
under any statement semantics (every line is commented out or blank), while
the DAG declaration contained in the comments names exactly the two tasks
`train_pipeline` and `sync_data_to_s3`, in this order and no others. -/
theorem descriptor_load_and_declared_task_ids :
    (∀ execStmt : String → ModuleEffects → ModuleEffects,
        (evalModule execStmt moduleLines).registeredTaskIds = []) ∧
    taskIds networkTrainingDag = ["train_pipeline", "sync_data_to_s3"] := by
  constructor
  · intro execStmt
    rw [evalModule_moduleLines]
    rfl
  · rfl

/-- Claim C2, counterexample: not every line of the file is a comment — the
tenth line (index 9) is empty. -/
theorem module_has_noncomment_line :
    moduleLines[9]? = some "" ∧ isComment "" = false :=
  ⟨rfl, rfl⟩

/-- Claim C2, amended: every line of the file is a comment or blank, so
evaluating the module is a no-op under any statement semantics — it defines
no names, registers no tasks, loads no environment variables and runs no
shell command. -/
theorem module_evaluation_noop :
    moduleLines.all (fun l => isComment l || isBlank l) = true ∧
    (∀ execStmt : String → ModuleEffects → ModuleEffects,
        evalModule execStmt moduleLines = emptyEffects) := by
  constructor
  · decide
  · exact evalModule_moduleLines

/-- Claim C3 (confirmed): the declaration has the single dependency edge
`train_pipeline → sync_data_to_s3` and no cycle, and in every valid
execution in which `sync_data_to_s3` runs, `train_pipeline` ran to
successful completion strictly before `sync_data_to_s3` began — so the two
task intervals never overlap and are never reversed. -/
theorem sync_never_precedes_training (e : Execution)
    (hv : ValidExecution networkTrainingDag e)
    (hr : e.runs "sync_data_to_s3" = true) :
    networkTrainingDag.upstream_edges = [("train_pipeline", "sync_data_to_s3")] ∧
    Acyclic networkTrainingDag ∧
    e.runs "train_pipeline" = true ∧
    e.succeeded "train_pipeline" = true ∧
    e.finishT "train_pipeline" < e.startT "sync_data_to_s3" := by
  have hmem : ("train_pipeline", "sync_data_to_s3") ∈ networkTrainingDag.upstream_edges := by
    decide
  have h2 := hv.2 ("train_pipeline", "sync_data_to_s3") hmem hr
  refine ⟨rfl, ?_, h2.1, h2.2.1, h2.2.2⟩
  unfold Acyclic
  decide

/-- Claim C3, witness: the sample execution (training over `[0,1]`, sync
over `[2,3]`, both successful) is valid, and the theorem's conclusion holds
for it. -/
theorem sync_never_precedes_training_witness :
    ValidExecution networkTrainingDag sampleExecution ∧
    (networkTrainingDag.upstream_edges = [("train_pipeline", "sync_data_to_s3")] ∧
     Acyclic networkTrainingDag ∧
     sampleExecution.runs "train_pipeline" = true ∧
     sampleExecution.succeeded "train_pipeline" = true ∧
     sampleExecution.finishT "train_pipeline" < sampleExecution.startT "sync_data_to_s3") :=
  ⟨by unfold ValidExecution; decide,
   sync_never_precedes_training sampleExecution (by unfold ValidExecution; decide) (by decide)⟩

/-- Claim C4 (confirmed): the declaration configures 2 retries per task, and
under the orchestrator's retry policy a callable that fails on its first two
invocations and succeeds on the third leaves the task marked successful
after exactly 2 retries. -/
theorem task_retries_two_then_success (attempt : Nat → Bool)
    (h0 : attempt 0 = false) (h1 : attempt 1 = false) (h2 : attempt 2 = true) :
    networkTrainingDag.default_args.retries = 2 ∧
    runWithRetries networkTrainingDag.default_args.retries attempt =
      (TaskState.success, 2) := by
  refine ⟨rfl, ?_⟩
  show runWithRetries 2 attempt = (TaskState.success, 2)
  simp [runWithRetries, runWithRetriesAux, h0, h1, h2]

/-- Claim C4, witness: the theorem at the concrete attempt profile that
fails twice and then succeeds. -/
theorem task_retries_two_then_success_witness :
    thirdTrySucceeds 0 = false ∧ thirdTrySucceeds 1 = false ∧
    thirdTrySucceeds 2 = true ∧
    (networkTrainingDag.default_args.retries = 2 ∧
     runWithRetries networkTrainingDag.default_args.retries thirdTrySucceeds =
       (TaskState.success, 2)) :=
  ⟨by decide, by decide, by decide,
   task_retries_two_then_success thirdTrySucceeds (by decide) (by decide) (by decide)⟩

/-- Claim C5 (confirmed): whatever exit status the shell returns for a sync
command — in particular a non-zero one — the sync callable returns normally
(it never inspects the statuses), so the orchestrator reports the task
successful. -/
theorem sync_failure_reported_success (shell : String → Int) (cmd : String)
    (hmem : cmd ∈ syncCommands shell) (hst : shell cmd ≠ 0) :
    (∃ trace, sync_artifact_to_s3_bucket shell = Except.ok trace) ∧
    taskRunState (sync_artifact_to_s3_bucket shell) = TaskState.success :=
  ⟨⟨_, rfl⟩, rfl⟩

/-- Claim C5, witness: in the shell where every command exits with status 1,
the first sync command has non-zero status yet the task is reported
successful. -/
theorem sync_failure_reported_success_witness :
    failShell "aws s3 sync /app/Artifacts s3://networksecurity3/artifact" ≠ 0 ∧
    ((∃ trace, sync_artifact_to_s3_bucket failShell = Except.ok trace) ∧
     taskRunState (sync_artifact_to_s3_bucket failShell) = TaskState.success) :=
  ⟨by decide,
   sync_failure_reported_success failShell
     "aws s3 sync /app/Artifacts s3://networksecurity3/artifact"
     (by decide) (by decide)⟩

/-- Claim C6 (confirmed): the declaration schedules the DAG weekly from the
fixed start date 2024-12-24 UTC with catchup disabled, so no run instance is
generated for a schedule interval that fully elapsed before the
descriptor's first evaluation. -/
theorem weekly_no_catchup_before_first_eval (startEpoch firstEval n : Nat)
    (h : intervalEnd startEpoch weekSeconds n < firstEval) :
    networkTrainingDag.schedule_interval = "@weekly" ∧
    networkTrainingDag.catchup = false ∧
    networkTrainingDag.start_date = { year := 2024, month := 12, day := 24, tz := "UTC" } ∧
    runGenerated networkTrainingDag.catchup startEpoch weekSeconds firstEval n = false := by
  refine ⟨rfl, rfl, rfl, ?_⟩
  show runGenerated false startEpoch weekSeconds firstEval n = false
  simp [runGenerated, h]

/-- Claim C6, witness: for a schedule starting at epoch 0, the first weekly
interval ends at 604800; with first evaluation at 1209600 that interval has
elapsed, and no run is generated for it. -/
theorem weekly_no_catchup_before_first_eval_witness :
    intervalEnd 0 weekSeconds 0 < 1209600 ∧
    (networkTrainingDag.schedule_interval = "@weekly" ∧
     networkTrainingDag.catchup = false ∧
     networkTrainingDag.start_date = { year := 2024, month := 12, day := 24, tz := "UTC" } ∧
     runGenerated networkTrainingDag.catchup 0 weekSeconds 1209600 0 = false) :=
  ⟨by decide, weekly_no_catchup_before_first_eval 0 1209600 0 (by decide)⟩

/-- Claim C7 (confirmed): whatever the ambient shell does, one invocation of
the sync callable issues exactly these two command lines, in this order:
both target the hard-coded bucket `networksecurity3`, mapping the local
directory `/app/Artifacts` to the key prefix `artifact` and the local
directory `/app/final_model` to the key prefix `final_model`. -/
theorem sync_issues_exactly_two_commands (shell : String → Int) :
    syncCommands shell =
      ["aws s3 sync /app/Artifacts s3://networksecurity3/artifact",
       "aws s3 sync /app/final_model s3://networksecurity3/final_model"] := rfl

/-- Claim C8, counterexample: evaluating the file as it stands loads
environment variables zero times — even under the over-generous semantics in
which every executed line would load them — not exactly once. -/
theorem module_load_no_dotenv :
    (evalModule generousSemantics moduleLines).dotenvLoads = 0 ∧
    ((evalModule generousSemantics moduleLines).dotenvLoads == 1) = false := by
  rw [evalModule_moduleLines]
  exact ⟨rfl, rfl⟩

/-- Claim C8, amended: evaluating the file as it stands loads no environment
variables under any statement semantics; in the declared (commented-out)
descriptor, `load_dotenv()` runs exactly once, at module-load time, before
either task is registered — and load time precedes any task body run. -/
theorem declared_dotenv_once_before_tasks :
    (∀ execStmt : String → ModuleEffects → ModuleEffects,
        (evalModule execStmt moduleLines).dotenvLoads = 0) ∧
    declaredLoadTrace.count LoadEvent.loadDotenv = 1 ∧
    declaredLoadTrace.findIdx (fun e => e == LoadEvent.loadDotenv) <
      declaredLoadTrace.findIdx (fun e =>
        match e with
        | LoadEvent.registerTask _ => true
        | _ => false) := by
  refine ⟨?_, by decide, by decide⟩
  intro execStmt
  rw [evalModule_moduleLines]
  rfl

/-- Claim C9, counterexample: under an import environment in which every
module except the external training-pipeline module is available, descriptor
evaluation succeeds and registers the DAG — the missing import is not fatal
at load time — while the failure surfaces as an `ImportError` when the
`training` task body first runs. -/
theorem missing_training_import_not_load_fatal :
    descriptorEval noTrainingModule = Except.ok networkTrainingDag ∧
    training noTrainingModule (Except.ok ()) =
      Except.error (PyExn.importError trainingBodyImport) :=
  ⟨rfl, rfl⟩

/-- Claim C9, amended: the import of the external training-pipeline module
sits inside the body of `training`, so its absence does not affect
descriptor evaluation — the workflow is still registered — and instead
surfaces as an `ImportError` when the training task first runs. -/
theorem training_import_deferred_to_first_run (available : String → Bool)
    (pipelineRun : Except PyExn Unit)
    (hTop : topLevelImports.all available = true)
    (hMissing : available trainingBodyImport = false) :
    descriptorEval available = Except.ok networkTrainingDag ∧
    training available pipelineRun =
      Except.error (PyExn.importError trainingBodyImport) := by
  constructor
  · unfold descriptorEval
    have hnone : topLevelImports.find? (fun m => !(available m)) = none := by
      rw [List.find?_eq_none]
      intro x hx
      have hax : available x = true := by
        have hx2 := List.all_eq_true.mp hTop x hx
        simpa using hx2
      simp [hax]
    rw [hnone]
  · unfold training
    simp [hMissing]

/-- Claim C9, witness: the amended theorem at the concrete import
environment that lacks only the training-pipeline module. -/
theorem training_import_deferred_to_first_run_witness :
    topLevelImports.all noTrainingModule = true ∧
    noTrainingModule trainingBodyImport = false ∧
    (descriptorEval noTrainingModule = Except.ok networkTrainingDag ∧
     training noTrainingModule (Except.ok ()) =
       Except.error (PyExn.importError trainingBodyImport)) :=
  ⟨by decide, by decide,
   training_import_deferred_to_first_run noTrainingModule (Except.ok ())
     (by decide) (by decide)⟩

/-- Claim C10 (confirmed): one invocation of the sync callable produces
exactly the trace in which the `/app/Artifacts` sync runs first and the
`/app/final_model` sync runs second — also when the first command's exit
status is non-zero, since neither status is inspected. -/
theorem sync_trace_fixed_order_unconditional (shell : String → Int)
    (h : shell "aws s3 sync /app/Artifacts s3://networksecurity3/artifact" ≠ 0) :
    sync_artifact_to_s3_bucket shell =
      Except.ok
        [("aws s3 sync /app/Artifacts s3://networksecurity3/artifact",
          shell "aws s3 sync /app/Artifacts s3://networksecurity3/artifact"),
         ("aws s3 sync /app/final_model s3://networksecurity3/final_model",
          shell "aws s3 sync /app/final_model s3://networksecurity3/final_model")] := rfl

/-- Claim C10, witness: in the shell where every command exits with status
1, the first command's status is non-zero and the trace still holds both
commands in order. -/
theorem sync_trace_fixed_order_unconditional_witness :
    failShell "aws s3 sync /app/Artifacts s3://networksecurity3/artifact" ≠ 0 ∧
    sync_artifact_to_s3_bucket failShell =
      Except.ok
        [("aws s3 sync /app/Artifacts s3://networksecurity3/artifact", 1),
         ("aws s3 sync /app/final_model s3://networksecurity3/final_model", 1)] :=
  ⟨by decide, sync_trace_fixed_order_unconditional failShell (by decide)⟩
